import Mathlib

/-!
# CJIT launcher: `src/cjit.c`

A shallow embedding of `main` (and of the TCC callback `handle_error`) of the
CJIT compile-and-run launcher.

`main` is straight-line code around calls into libtcc, the flag parser, the
file helpers of `file.c` and the diagnostic sink of `io.c`.  None of those
bodies belongs to `cjit.c`; each of them is a field of the environment `Env`
that gives the result of the call as a function of its arguments.  A run of
`main` is the sequence of completed external calls (each with its arguments
and its result) together with the status with which the process ends.

Conventions of the embedding:

* Every external call returns.  A flag parser that ends the process itself
  (as for `--help`) and an entry point that loops or leaves through a
  non-local exit are not runs of this model.
* The status of a run is the argument of `exit`, or the value that `main`
  returns to its caller (a return from `main` ends the process with that
  value as status).
* The `static bool verbose` and `static bool version` flags are written by the
  flag parser through the `options` table and never read by `main`; they do
  not appear.
* `int` and `unsigned int` values are only passed along, never computed with,
  so they are integers and naturals without a bound.
-/

namespace CJIT

/-! ## Data model -/

/-- Handle of one compiler session: the non-null `TCCState *` of `tcc_new`. -/
structure TCCState where
  id : Nat
  deriving DecidableEq

/-- Bytes of an object embedded in the binary. -/
abbrev Bytes := List (Fin 256)

/-- Host addresses that `main` hands to `tcc_add_symbol`:
`&stdout`, `&stderr` and `&fprintf`. -/
inductive HostAddr where
  | stdout
  | stderr
  | fprintf
  deriving DecidableEq

/-- Output type constants of libtcc used by `main`. -/
inductive OutputType where
  | TCC_OUTPUT_MEMORY
  deriving DecidableEq

/-- Result of `mkdtemp(tmptemplate)`: on success the returned pointer is the
template array itself, now holding the name of the created directory; on
failure the result is null and the array holds whatever `mkdtemp` left. -/
inductive Mkdtemp where
  | created (dir : String)
  | failed (template : String)
  deriving DecidableEq

/-- Signature of the entry point, `int (*_main)(int, char**)`: the result as a
function of the argument count and vector it is called with. -/
abbrev EntryFn := Int → List String → Int

/-- One completed step of a run: an external call with its arguments (and its
result where it has one), or the way the process ends.  A null-terminated
`char **` is a list of strings; `argv[0]` is null exactly when it is empty. -/
inductive Event where
  | cflag_apply (synopsis : String) (argc_in : Int) (argv_in : List String)
      (argc_out : Int) (argv_out : List String)
  | cflag_usage (progname : String) (synopsis : String)
  | err (fmt : String) (args : List String)
  | tcc_new (ret : Option TCCState)
  | tcc_set_error_func (s : TCCState)
  | mkdtemp (template : String) (ret : Mkdtemp)
  | strerror_errno (ret : String)
  | tcc_set_lib_path (s : TCCState) (path : String)
  | tcc_add_library_path (s : TCCState) (path : String)
  | tcc_add_include_path (s : TCCState) (path : String)
  | tcc_set_output_type (s : TCCState) (t : OutputType)
  | file_load (path : String) (ret : Option String)
  | tcc_compile_string (s : TCCState) (code : String) (ret : Int)
  | free_code (code : String)
  | tcc_add_symbol (s : TCCState) (name : String) (addr : HostAddr)
  | write_to_file (path : String) (filename : String) (buf : Bytes) (len : Nat) (ret : Bool)
  | tcc_relocate (s : TCCState) (ret : Int)
  | tcc_get_symbol (s : TCCState) (name : String) (found : Bool)
  | invoke (argc : Int) (argv : List String) (ret : Int)
  | tcc_delete (s : TCCState)
  | rm_recursive (path : String) (ret : Bool)
  | exit (status : Int)
  | main_return (status : Int)
  deriving DecidableEq

/-- Everything `main` takes from outside `cjit.c`.

* `VERSION` is the build-time macro.
* `cflag_apply argc argv` is what the flag parser leaves in `argc` and `argv`
  (it receives `&argc` and `&argv`).
* `libtcc1` and `musl_libc` are the objects that the generated embed files
  define at the link symbols of those names (`main` passes `&libtcc1` and
  `&musl_libc`, the addresses of these objects), `libtcc1_len` and
  `musl_libc_len` the `unsigned int` variables next to them.
* `compile_diagnostics` and `relocate_diagnostics` are the messages libtcc
  hands to the installed error callback during the two calls.
* The other fields are results of the external functions of the same name. -/
structure Env where
  VERSION : String
  cflag_apply : Int → List String → Int × List String
  tcc_new : Option TCCState
  mkdtemp : String → Mkdtemp
  strerror_errno : String
  file_load : String → Option String
  tcc_compile_string : TCCState → String → Int
  compile_diagnostics : TCCState → String → List String
  libtcc1 : Bytes
  libtcc1_len : Nat
  musl_libc : Bytes
  musl_libc_len : Nat
  write_to_file : String → String → Bytes → Nat → Bool
  tcc_relocate : TCCState → Int
  relocate_diagnostics : TCCState → List String
  tcc_get_symbol : TCCState → String → Option EntryFn
  rm_recursive : String → Bool

/-- A finished run: the completed steps in order, and the status with which
the process ends (the argument of `exit`, or the value `main` returns). -/
structure Run where
  trace : List Event
  status : Int

/-! ## The program -/

/-- The TCC callback: `void handle_error(void *n, const char *m) { _err("%s",m); }`. -/
def handle_error (m : String) : List Event :=
  [Event.err "%s" [m]]

/-- Local `const char *include_path = 0x0;` of `main`. -/
def include_path : Option String := none

/-- Local `const char *libs_path = 0x0;` of `main`. -/
def libs_path : Option String := none

/-- Local `char tmptemplate[] = "/tmp/CJIT-exec.XXXXXX";` of `main`. -/
def tmptemplate : String := "/tmp/CJIT-exec.XXXXXX"

/-- Local `const char *progname = "cjit";` of `main`. -/
def progname : String := "cjit"

/-- Local `const char *syntax = "[options] code.c";` of `main`. -/
def synopsis : String := "[options] code.c"

/-- The code at label `endgame:` of `main`, entered with the trace so far, the
session, the value of `tmpdir` (null is `none`) and the value of `res`. -/
def endgame (e : Env) (tr : List Event) (TCC : TCCState) (tmpdir : Option String)
    (res : Int) : Run :=
  let tr := tr ++ [Event.tcc_delete TCC]
  let tr :=
    match tmpdir with
    | some d => tr ++ [Event.rm_recursive d (e.rm_recursive d)]
    | none => tr
  let tr := tr ++ [Event.err "---\nExecution completed" []]
  { trace := tr ++ [Event.exit res], status := res }

/-- Function `int main(int argc, char **argv)` of `cjit.c`. -/
def main (e : Env) (argc0 : Int) (argv0 : List String) : Run :=
  let res : Int := 1
  let argc := (e.cflag_apply argc0 argv0).1
  let argv := (e.cflag_apply argc0 argv0).2
  let tr := [Event.cflag_apply synopsis argc0 argv0 argc argv]
  match argv.head? with
  | none =>
    { trace := tr ++ [Event.cflag_usage progname synopsis, Event.exit 1], status := 1 }
  | some code_path =>
    let tr := tr ++ [Event.err "CJIT %s" [e.VERSION], Event.tcc_new e.tcc_new]
    match e.tcc_new with
    | none =>
      { trace := tr ++ [Event.err "Could not initialize tcc" [], Event.exit 1], status := 1 }
    | some TCC =>
      let tr := tr ++ [Event.tcc_set_error_func TCC,
                       Event.mkdtemp tmptemplate (e.mkdtemp tmptemplate)]
      match e.mkdtemp tmptemplate with
      | Mkdtemp.failed t =>
        let tr := tr ++ [Event.strerror_errno e.strerror_errno,
                         Event.err "Error creating temp dir %s: %s" [t, e.strerror_errno]]
        endgame e tr TCC none res
      | Mkdtemp.created tmpdir =>
        let tr := tr ++ [Event.tcc_set_lib_path TCC tmpdir,
                         Event.tcc_add_library_path TCC tmpdir,
                         Event.tcc_add_include_path TCC "/usr/include/x86_64-linux-musl"]
        let tr := tr ++
          (match include_path with
           | some p => [Event.err "Path to headers included: %s" [p],
                        Event.tcc_add_include_path TCC p]
           | none => [])
        let tr := tr ++
          (match libs_path with
           | some p => [Event.err "Path to libraries linked: %s" [p],
                        Event.tcc_add_library_path TCC p]
           | none => [])
        let tr := tr ++ [Event.tcc_set_output_type TCC OutputType.TCC_OUTPUT_MEMORY,
                         Event.err "Source to execute: %s" [code_path],
                         Event.file_load code_path (e.file_load code_path)]
        match e.file_load code_path with
        | none =>
          endgame e (tr ++ [Event.err "File not found: %s" [code_path]]) TCC (some tmpdir) res
        | some code =>
          let tr := tr ++ (e.compile_diagnostics TCC code).flatMap handle_error ++
            [Event.tcc_compile_string TCC code (e.tcc_compile_string TCC code)]
          if e.tcc_compile_string TCC code = -1 then
            { trace := tr ++ [Event.main_return 1], status := 1 }
          else
            let tr := tr ++ [Event.free_code code,
                             Event.err "Compilation successful" [],
                             Event.tcc_add_symbol TCC "stdout" HostAddr.stdout,
                             Event.tcc_add_symbol TCC "stderr" HostAddr.stderr,
                             Event.tcc_add_symbol TCC "fprintf" HostAddr.fprintf]
            let w1 := e.write_to_file tmpdir "libtcc1.a" e.libtcc1 e.libtcc1_len
            let tr := tr ++ [Event.write_to_file tmpdir "libtcc1.a" e.libtcc1 e.libtcc1_len w1]
            if !w1 then endgame e tr TCC (some tmpdir) res
            else
              let w2 := e.write_to_file tmpdir "libc.so" e.musl_libc e.musl_libc_len
              let tr := tr ++ [Event.write_to_file tmpdir "libc.so" e.musl_libc e.musl_libc_len w2]
              if !w2 then endgame e tr TCC (some tmpdir) res
              else
                let tr := tr ++ (e.relocate_diagnostics TCC).flatMap handle_error ++
                  [Event.tcc_relocate TCC (e.tcc_relocate TCC)]
                if e.tcc_relocate TCC < 0 then
                  endgame e (tr ++ [Event.err "TCC relocation error" []]) TCC (some tmpdir) res
                else
                  let tr := tr ++ [Event.tcc_get_symbol TCC "main"
                                     (e.tcc_get_symbol TCC "main").isSome]
                  match e.tcc_get_symbol TCC "main" with
                  | none =>
                    endgame e (tr ++ [Event.err "Symbol not found in source: %s" ["main"]])
                      TCC (some tmpdir) res
                  | some _main =>
                    let res := _main argc argv
                    let tr := tr ++ [Event.err "Execution start\n---" [],
                                     Event.invoke argc argv res]
                    endgame e tr TCC (some tmpdir) res

/-! ## Observations on runs -/

/-- Whether a step is the call of the entry point. -/
def Event.isInvoke : Event → Bool
  | Event.invoke _ _ _ => true
  | _ => false

/-- Whether a step is a call of `tcc_add_symbol`. -/
def Event.isAddSymbol : Event → Bool
  | Event.tcc_add_symbol _ _ _ => true
  | _ => false

/-- Whether a step is a call of `tcc_relocate`. -/
def Event.isRelocate : Event → Bool
  | Event.tcc_relocate _ _ => true
  | _ => false

/-- Whether a step is the return of `main` to its caller. -/
def Event.isMainReturn : Event → Bool
  | Event.main_return _ => true
  | _ => false

/-- Whether a step is a call of `tcc_compile_string` that did not return -1. -/
def Event.isCompileOk : Event → Bool
  | Event.tcc_compile_string _ _ ret => decide (ret ≠ -1)
  | _ => false

/-- Argument count and vector of a call of the entry point. -/
def Event.invokeArgs : Event → Option (Int × List String)
  | Event.invoke argc argv _ => some (argc, argv)
  | _ => none

/-- Result of a call of the entry point. -/
def Event.invokeResult : Event → Option Int
  | Event.invoke _ _ ret => some ret
  | _ => none

/-- Argument of a call of `exit`. -/
def Event.exitArg : Event → Option Int
  | Event.exit n => some n
  | _ => none

/-- Path of a call of `rm_recursive`. -/
def Event.removed : Event → Option String
  | Event.rm_recursive path _ => some path
  | _ => none

/-- Session of a call of `tcc_delete`. -/
def Event.deleted : Event → Option TCCState
  | Event.tcc_delete s => some s
  | _ => none

/-- Directory created by a successful call of `mkdtemp`. -/
def Event.workspace : Event → Option String
  | Event.mkdtemp _ (Mkdtemp.created d) => some d
  | _ => none

/-- Session returned by a successful call of `tcc_new`. -/
def Event.session : Event → Option TCCState
  | Event.tcc_new (some s) => some s
  | _ => none

/-- One call of `write_to_file`: directory, file name, buffer, length, result. -/
structure WriteCall where
  path : String
  filename : String
  buf : Bytes
  len : Nat
  ret : Bool
  deriving DecidableEq

/-- Arguments and result of a call of `write_to_file`. -/
def Event.written : Event → Option WriteCall
  | Event.write_to_file p f b l r => some ⟨p, f, b, l, r⟩
  | _ => none

/-- Session, name and address of a call of `tcc_add_symbol`. -/
def Event.symbol : Event → Option (TCCState × String × HostAddr)
  | Event.tcc_add_symbol s name addr => some (s, name, addr)
  | _ => none

/-- Expansion of a printf format whose directives are all `%s`. -/
def printf_chars : List Char → List String → List Char
  | '%' :: 's' :: cs, a :: as => a.toList ++ printf_chars cs as
  | c :: cs, as => c :: printf_chars cs as
  | [], _ => []

/-- The text a call `_err(fmt, args...)` is given to pass on: the format with
each `%s` replaced by the next string argument, as the printf family does. -/
def printf_s (fmt : String) (args : List String) : String :=
  String.mk (printf_chars fmt.toList args)

/-- Message of a call of `_err`. -/
def Event.message : Event → Option String
  | Event.err fmt args => some (printf_s fmt args)
  | _ => none

/-- Whether the entry point is called during the run. -/
def invoked (r : Run) : Bool := r.trace.any Event.isInvoke

/-- Argument count and vector of each call of the entry point, in order. -/
def invocations (tr : List Event) : List (Int × List String) :=
  tr.filterMap Event.invokeArgs

/-- Results of the calls of the entry point, in order. -/
def entryResults (tr : List Event) : List Int :=
  tr.filterMap Event.invokeResult

/-- Arguments of the calls of `exit`, in order. -/
def exits (tr : List Event) : List Int :=
  tr.filterMap Event.exitArg

/-- Paths on which `rm_recursive` is called, in order. -/
def removals (tr : List Event) : List String :=
  tr.filterMap Event.removed

/-- Sessions on which `tcc_delete` is called, in order. -/
def deletions (tr : List Event) : List TCCState :=
  tr.filterMap Event.deleted

/-- Directories that `mkdtemp` created, in order. -/
def workspaces (tr : List Event) : List String :=
  tr.filterMap Event.workspace

/-- Sessions that `tcc_new` returned, in order. -/
def sessions (tr : List Event) : List TCCState :=
  tr.filterMap Event.session

/-- The calls of `write_to_file`, in order. -/
def writes (tr : List Event) : List WriteCall :=
  tr.filterMap Event.written

/-- The symbols registered with `tcc_add_symbol`, in order. -/
def registered (tr : List Event) : List (TCCState × String × HostAddr) :=
  tr.filterMap Event.symbol

/-- The messages of the `_err` calls of a trace, in order. -/
def diagnostics (tr : List Event) : List String :=
  tr.filterMap Event.message

/-- The fixed host symbol table of `main` (its three `tcc_add_symbol` lines). -/
def hostSymbolTable : List (String × HostAddr) :=
  [("stdout", HostAddr.stdout), ("stderr", HostAddr.stderr), ("fprintf", HostAddr.fprintf)]

/-- The steps of a trace that come before the first step satisfying `p`. -/
def before (p : Event → Bool) (tr : List Event) : List Event :=
  tr.takeWhile fun ev => !p ev

/-- The steps of a trace from the first step satisfying `p` on. -/
def since (p : Event → Bool) (tr : List Event) : List Event :=
  tr.dropWhile fun ev => !p ev

/-- Position of a pipeline step in the order in which `main` performs them:
workspace creation, library path, compilation, host symbols, staging,
relocation, entry resolution, invocation. -/
def stageInCode : Event → Option Nat
  | Event.mkdtemp _ _ => some 0
  | Event.tcc_set_lib_path _ _ => some 1
  | Event.tcc_add_library_path _ _ => some 1
  | Event.tcc_compile_string _ _ _ => some 2
  | Event.tcc_add_symbol _ _ _ => some 3
  | Event.write_to_file _ _ _ _ _ => some 4
  | Event.tcc_relocate _ _ => some 5
  | Event.tcc_get_symbol _ _ _ => some 6
  | Event.invoke _ _ _ => some 7
  | _ => none

/-- Position of a pipeline step in the lifecycle order of the specification:
workspace creation, staging, library path, compilation, host symbols,
relocation, entry resolution, invocation. -/
def stageInSpec : Event → Option Nat
  | Event.mkdtemp _ _ => some 0
  | Event.write_to_file _ _ _ _ _ => some 1
  | Event.tcc_set_lib_path _ _ => some 2
  | Event.tcc_add_library_path _ _ => some 2
  | Event.tcc_compile_string _ _ _ => some 3
  | Event.tcc_add_symbol _ _ _ => some 4
  | Event.tcc_relocate _ _ => some 5
  | Event.tcc_get_symbol _ _ _ => some 6
  | Event.invoke _ _ _ => some 7
  | _ => none

/-- Whether the pipeline steps of a trace occur in the order given by `stage`:
no step of a later stage comes before a step of an earlier one. -/
def inOrder (stage : Event → Option Nat) (tr : List Event) : Prop :=
  (tr.filterMap stage).Pairwise (· ≤ ·)

instance (stage : Event → Option Nat) (tr : List Event) : Decidable (inOrder stage tr) :=
  inferInstanceAs (Decidable ((tr.filterMap stage).Pairwise (· ≤ ·)))

/-- The stages of a complete run of `main`, in the order of `stageInCode`: one
workspace, two library path calls, one compilation, three host symbols, two
staged files, relocation, entry resolution, invocation. -/
def fullPipeline : List Nat := [0, 1, 1, 2, 3, 3, 3, 4, 4, 5, 6, 7]

/-! ## Sample environments -/

/-- An environment in which every step succeeds and the entry returns 42; the
flag parser drops the program name and leaves the source path in `argv[0]`. -/
def sampleEnv : Env where
  VERSION := "0.1"
  cflag_apply := fun argc argv => (argc - 1, argv.tail)
  tcc_new := some ⟨1⟩
  mkdtemp := fun _ => Mkdtemp.created "/tmp/CJIT-exec.a1b2c3"
  strerror_errno := "Permission denied"
  file_load := fun _ => some "int main(int argc, char **argv)\x7b return 42; \x7d"
  tcc_compile_string := fun _ _ => 0
  compile_diagnostics := fun _ _ => []
  libtcc1 := [33, 60, 97]
  libtcc1_len := 3
  musl_libc := [127, 69, 76, 70]
  musl_libc_len := 4
  write_to_file := fun _ _ _ _ => true
  tcc_relocate := fun _ => 0
  relocate_diagnostics := fun _ => []
  tcc_get_symbol := fun _ _ => some (fun _ _ => 42)
  rm_recursive := fun _ => true

/-- As `sampleEnv`, but `tcc_new` returns null. -/
def noSessionEnv : Env :=
  { sampleEnv with tcc_new := none }

/-- As `sampleEnv`, but the source is the truncated text `int main(` and
`tcc_compile_string` reports one error and returns -1. -/
def compileFailEnv : Env :=
  { sampleEnv with
    file_load := fun _ => some "int main("
    tcc_compile_string := fun _ _ => -1
    compile_diagnostics := fun _ _ => ["<string>:1: error: identifier expected"] }

/-- As `sampleEnv`, but the source only defines a helper function, so that
`tcc_get_symbol` finds no `main`. -/
def noEntryEnv : Env :=
  { sampleEnv with
    file_load := fun _ => some "int helper(void)\x7b return 7; \x7d"
    tcc_get_symbol := fun _ _ => none }

/-- The command line `cjit code.c`. -/
def sampleArgv : List String := ["cjit", "code.c"]

/-! ## Auxiliary facts about traces -/

/-- Messages forwarded by the error callback carry no observation that
ignores `_err` calls. -/
@[simp] theorem filterMap_diagnostics {α : Type} (f : Event → Option α)
    (hf : ∀ fmt args, f (Event.err fmt args) = none) (ms : List String) :
    (ms.flatMap handle_error).filterMap f = [] := by
  induction ms with
  | nil => rfl
  | cons m ms ih =>
    simp only [List.flatMap_cons, List.filterMap_append, ih, handle_error]
    simp [hf]

/-- No step forwarded by the error callback satisfies a test that rejects
`_err` calls. -/
@[simp] theorem any_diagnostics (p : Event → Bool)
    (hp : ∀ fmt args, p (Event.err fmt args) = false) (ms : List String) :
    (ms.flatMap handle_error).any p = false := by
  induction ms with
  | nil => rfl
  | cons m ms ih =>
    simp only [List.flatMap_cons, List.any_append, ih, handle_error]
    simp [hp]

theorem before_nil (p : Event → Bool) : before p [] = [] := rfl

theorem since_nil (p : Event → Bool) : since p [] = [] := rfl

theorem before_cons (p : Event → Bool) (a : Event) (l : List Event) :
    before p (a :: l) = if p a = true then [] else a :: before p l := by
  cases h : p a <;> simp [before, List.takeWhile_cons, h]

theorem since_cons (p : Event → Bool) (a : Event) (l : List Event) :
    since p (a :: l) = if p a = true then a :: l else since p l := by
  cases h : p a <;> simp [since, List.dropWhile_cons, h]

theorem before_diagnostics_append (p : Event → Bool)
    (hp : ∀ fmt args, p (Event.err fmt args) = false) (ms : List String) (l : List Event) :
    before p (ms.flatMap handle_error ++ l) = ms.flatMap handle_error ++ before p l := by
  induction ms with
  | nil => rfl
  | cons m ms ih =>
    simp only [List.flatMap_cons, handle_error, List.append_assoc, List.singleton_append,
      List.cons_append, List.nil_append]
    rw [before_cons, hp]
    simpa [handle_error] using ih

theorem since_diagnostics_append (p : Event → Bool)
    (hp : ∀ fmt args, p (Event.err fmt args) = false) (ms : List String) (l : List Event) :
    since p (ms.flatMap handle_error ++ l) = since p l := by
  induction ms with
  | nil => rfl
  | cons m ms ih =>
    simp only [List.flatMap_cons, handle_error, List.append_assoc, List.singleton_append,
      List.cons_append, List.nil_append]
    rw [since_cons, hp]
    simpa [handle_error] using ih

/-- The format and argument of the missing-entry diagnostic expand to the
message `Symbol not found in source: main`. -/
theorem printf_s_symbol_not_found :
    printf_s "Symbol not found in source: %s" ["main"] = "Symbol not found in source: main" := by
  decide

/-! ## Which runs reach the entry point -/

/-- The entry point is called exactly when a source path is given and every
step from `tcc_new` to `tcc_get_symbol` succeeds. -/
theorem invoked_iff_all_steps_succeed (e : Env) (argc0 : Int) (argv0 : List String) :
    invoked (main e argc0 argv0) = true ↔
      ∃ code_path TCC tmpdir code,
        (e.cflag_apply argc0 argv0).2.head? = some code_path ∧
        e.tcc_new = some TCC ∧
        e.mkdtemp tmptemplate = Mkdtemp.created tmpdir ∧
        e.file_load code_path = some code ∧
        e.tcc_compile_string TCC code ≠ -1 ∧
        e.write_to_file tmpdir "libtcc1.a" e.libtcc1 e.libtcc1_len = true ∧
        e.write_to_file tmpdir "libc.so" e.musl_libc e.musl_libc_len = true ∧
        0 ≤ e.tcc_relocate TCC ∧
        (e.tcc_get_symbol TCC "main").isSome = true := by
  unfold main endgame include_path libs_path
  simp only []
  repeat' split
  all_goals simp_all [invoked, Event.isInvoke, handle_error]

/-! ## Exit status -/

/-- C1: when a source path is given, every step up to `tcc_get_symbol`
succeeds and the entry returns `N` on the arguments it is called with, the
process ends through `exit(N)`: its status is `N` and `N` is the one value
passed to `exit`. -/
theorem exit_status_is_entry_result (e : Env) (argc0 : Int) (argv0 : List String)
    (code_path : String) (TCC : TCCState) (tmpdir code : String) (entry : EntryFn) (N : Int)
    (hpath : (e.cflag_apply argc0 argv0).2.head? = some code_path)
    (hnew : e.tcc_new = some TCC)
    (hdir : e.mkdtemp tmptemplate = Mkdtemp.created tmpdir)
    (hload : e.file_load code_path = some code)
    (hcomp : e.tcc_compile_string TCC code ≠ -1)
    (hw1 : e.write_to_file tmpdir "libtcc1.a" e.libtcc1 e.libtcc1_len = true)
    (hw2 : e.write_to_file tmpdir "libc.so" e.musl_libc e.musl_libc_len = true)
    (hrel : 0 ≤ e.tcc_relocate TCC)
    (hsym : e.tcc_get_symbol TCC "main" = some entry)
    (hN : entry (e.cflag_apply argc0 argv0).1 (e.cflag_apply argc0 argv0).2 = N) :
    (main e argc0 argv0).status = N ∧ exits (main e argc0 argv0).trace = [N] := by
  have hrel2 : ¬ e.tcc_relocate TCC < 0 := not_lt.mpr hrel
  simp [main, endgame, include_path, libs_path, hpath, hnew, hdir, hload, hcomp, hw1, hw2,
    hrel2, hsym, hN, exits, Event.exitArg]

/-- C1 at `cjit code.c` with a source whose `main` returns 42: the status is 42. -/
theorem exit_status_is_entry_result_witness :
    (main sampleEnv 2 sampleArgv).status = 42 ∧ exits (main sampleEnv 2 sampleArgv).trace = [42] :=
  exit_status_is_entry_result sampleEnv 2 sampleArgv "code.c" ⟨1⟩ "/tmp/CJIT-exec.a1b2c3"
    "int main(int argc, char **argv)\x7b return 42; \x7d" (fun _ _ => 42) 42
    rfl rfl rfl rfl (by decide) rfl rfl (by decide) rfl rfl

/-- C2: every run in which the entry point is not called ends with status 1,
whichever step kept it from being called. -/
theorem exit_status_one_when_not_invoked (e : Env) (argc0 : Int) (argv0 : List String)
    (h : invoked (main e argc0 argv0) = false) : (main e argc0 argv0).status = 1 := by
  revert h
  unfold main endgame include_path libs_path
  simp only []
  repeat' split
  all_goals simp [invoked, Event.isInvoke, handle_error]

/-- C2 at a run in which `tcc_new` fails. -/
theorem exit_status_one_when_not_invoked_witness :
    invoked (main noSessionEnv 2 sampleArgv) = false ∧ (main noSessionEnv 2 sampleArgv).status = 1 :=
  ⟨by decide, exit_status_one_when_not_invoked noSessionEnv 2 sampleArgv (by decide)⟩

/-- C8: two runs that differ only in what `rm_recursive` returns end with the
same status, and that status is the result of the entry when it was called and
1 otherwise. -/
theorem exit_status_independent_of_rm_recursive (e : Env) (rm1 rm2 : String → Bool)
    (argc0 : Int) (argv0 : List String) :
    (main { e with rm_recursive := rm1 } argc0 argv0).status =
      (main { e with rm_recursive := rm2 } argc0 argv0).status ∧
    (main { e with rm_recursive := rm1 } argc0 argv0).status =
      (entryResults (main { e with rm_recursive := rm1 } argc0 argv0).trace).head?.getD 1 := by
  unfold main endgame include_path libs_path
  simp only []
  repeat' split
  all_goals simp_all [entryResults, Event.invokeResult]

/-! ## Missing entry point -/

/-- C4: when every step up to relocation succeeds and `tcc_get_symbol` finds no
`main`, the entry is not called, `_err` is called with the format
`Symbol not found in source: %s` and the argument `main` (the message
`Symbol not found in source: main`), and the process ends through `exit(1)`. -/
theorem missing_entry_reported (e : Env) (argc0 : Int) (argv0 : List String)
    (code_path : String) (TCC : TCCState) (tmpdir code : String)
    (hpath : (e.cflag_apply argc0 argv0).2.head? = some code_path)
    (hnew : e.tcc_new = some TCC)
    (hdir : e.mkdtemp tmptemplate = Mkdtemp.created tmpdir)
    (hload : e.file_load code_path = some code)
    (hcomp : e.tcc_compile_string TCC code ≠ -1)
    (hw1 : e.write_to_file tmpdir "libtcc1.a" e.libtcc1 e.libtcc1_len = true)
    (hw2 : e.write_to_file tmpdir "libc.so" e.musl_libc e.musl_libc_len = true)
    (hrel : 0 ≤ e.tcc_relocate TCC)
    (hsym : e.tcc_get_symbol TCC "main" = none) :
    invoked (main e argc0 argv0) = false ∧
    Event.err "Symbol not found in source: %s" ["main"] ∈ (main e argc0 argv0).trace ∧
    "Symbol not found in source: main" ∈ diagnostics (main e argc0 argv0).trace ∧
    (main e argc0 argv0).status = 1 ∧ exits (main e argc0 argv0).trace = [1] := by
  have hrel2 : ¬ e.tcc_relocate TCC < 0 := not_lt.mpr hrel
  simp [main, endgame, include_path, libs_path, hpath, hnew, hdir, hload, hcomp, hw1, hw2,
    hrel2, hsym, exits, Event.exitArg, invoked, Event.isInvoke, diagnostics, Event.message,
    printf_s_symbol_not_found, handle_error]

/-- C4 at a source that only defines a helper function. -/
theorem missing_entry_reported_witness :
    invoked (main noEntryEnv 2 sampleArgv) = false ∧
    Event.err "Symbol not found in source: %s" ["main"] ∈ (main noEntryEnv 2 sampleArgv).trace ∧
    "Symbol not found in source: main" ∈ diagnostics (main noEntryEnv 2 sampleArgv).trace ∧
    (main noEntryEnv 2 sampleArgv).status = 1 ∧ exits (main noEntryEnv 2 sampleArgv).trace = [1] :=
  missing_entry_reported noEntryEnv 2 sampleArgv "code.c" ⟨1⟩ "/tmp/CJIT-exec.a1b2c3"
    "int helper(void)\x7b return 7; \x7d" rfl rfl rfl rfl (by decide) rfl rfl (by decide) rfl

/-! ## Teardown -/

/-- On every run `rm_recursive` is called on exactly the workspaces that
`mkdtemp` created, except when `main` returns after a failed compilation: then
it is not called at all. -/
theorem removals_eq_workspaces_unless_main_returns (e : Env) (argc0 : Int)
    (argv0 : List String) :
    removals (main e argc0 argv0).trace =
      if (main e argc0 argv0).trace.any Event.isMainReturn then []
      else workspaces (main e argc0 argv0).trace := by
  unfold main endgame include_path libs_path
  simp only []
  repeat' split
  all_goals
    simp_all [removals, workspaces, Event.removed, Event.workspace, Event.isMainReturn,
      handle_error]

/-- On every run `tcc_delete` is called on exactly the sessions that `tcc_new`
returned, except when `main` returns after a failed compilation: then it is
not called at all. -/
theorem deletions_eq_sessions_unless_main_returns (e : Env) (argc0 : Int)
    (argv0 : List String) :
    deletions (main e argc0 argv0).trace =
      if (main e argc0 argv0).trace.any Event.isMainReturn then []
      else sessions (main e argc0 argv0).trace := by
  unfold main endgame include_path libs_path
  simp only []
  repeat' split
  all_goals
    simp_all [deletions, sessions, Event.deleted, Event.session, Event.isMainReturn,
      handle_error]

/-- C3 fails on the code: when `tcc_compile_string` returns -1 after `mkdtemp`
created the workspace, `main` returns 1 at once and `rm_recursive` is never
called on the workspace. -/
theorem workspace_not_removed_on_compile_failure :
    workspaces (main compileFailEnv 2 sampleArgv).trace = ["/tmp/CJIT-exec.a1b2c3"] ∧
    removals (main compileFailEnv 2 sampleArgv).trace = [] ∧
    (main compileFailEnv 2 sampleArgv).trace.getLast? = some (Event.main_return 1) := by
  decide

/-- C5 fails on the code: when `tcc_compile_string` returns -1, `main` returns
1 at once and `tcc_delete` is never called on the session that `tcc_new`
returned. -/
theorem session_not_deleted_on_compile_failure :
    sessions (main compileFailEnv 2 sampleArgv).trace = [⟨1⟩] ∧
    deletions (main compileFailEnv 2 sampleArgv).trace = [] ∧
    (main compileFailEnv 2 sampleArgv).trace.getLast? = some (Event.main_return 1) := by
  decide

/-! ## Staging -/

/-- C6: on every run that reaches staging, `write_to_file` is called first for
`libtcc1.a` in the workspace that `mkdtemp` created, with the `libtcc1` object
and `libtcc1_len`, and then, only if that call succeeded, for `libc.so` in the
same directory with the `musl_libc` object and `musl_libc_len`; there is no
other call of `write_to_file`. -/
theorem staging_writes_embedded_assets (e : Env) (argc0 : Int) (argv0 : List String)
    (code_path : String) (TCC : TCCState) (tmpdir code : String)
    (hpath : (e.cflag_apply argc0 argv0).2.head? = some code_path)
    (hnew : e.tcc_new = some TCC)
    (hdir : e.mkdtemp tmptemplate = Mkdtemp.created tmpdir)
    (hload : e.file_load code_path = some code)
    (hcomp : e.tcc_compile_string TCC code ≠ -1) :
    workspaces (main e argc0 argv0).trace = [tmpdir] ∧
    writes (main e argc0 argv0).trace =
      ⟨tmpdir, "libtcc1.a", e.libtcc1, e.libtcc1_len,
        e.write_to_file tmpdir "libtcc1.a" e.libtcc1 e.libtcc1_len⟩ ::
      (if e.write_to_file tmpdir "libtcc1.a" e.libtcc1 e.libtcc1_len = true then
        [⟨tmpdir, "libc.so", e.musl_libc, e.musl_libc_len,
          e.write_to_file tmpdir "libc.so" e.musl_libc e.musl_libc_len⟩]
       else []) := by
  simp only [main, endgame, include_path, libs_path, hpath, hnew, hdir, hload, hcomp]
  repeat' split
  all_goals simp_all [workspaces, writes, Event.workspace, Event.written]

/-- C6 at `cjit code.c`: both assets are handed to the writer, bytes and length. -/
theorem staging_writes_embedded_assets_witness :
    workspaces (main sampleEnv 2 sampleArgv).trace = ["/tmp/CJIT-exec.a1b2c3"] ∧
    writes (main sampleEnv 2 sampleArgv).trace =
      [⟨"/tmp/CJIT-exec.a1b2c3", "libtcc1.a", [33, 60, 97], 3, true⟩,
       ⟨"/tmp/CJIT-exec.a1b2c3", "libc.so", [127, 69, 76, 70], 4, true⟩] :=
  staging_writes_embedded_assets sampleEnv 2 sampleArgv "code.c" ⟨1⟩ "/tmp/CJIT-exec.a1b2c3"
    "int main(int argc, char **argv)\x7b return 42; \x7d" rfl rfl rfl rfl (by decide)

/-! ## Arguments of the entry point -/

/-- C7 as stated fails: for `cjit code.c` the flag parser leaves argc 1 and
argv `code.c`, and the entry is called with those, not with the argc 2 and
argv `cjit code.c` that `main` received. -/
theorem entry_args_differ_from_original :
    invoked (main sampleEnv 2 sampleArgv) = true ∧
    invocations (main sampleEnv 2 sampleArgv).trace = [(1, ["code.c"])] ∧
    (2, sampleArgv) ∉ invocations (main sampleEnv 2 sampleArgv).trace := by
  decide

/-- C7 amended: whenever the entry point is called, it is called once, with the
argc and argv that `cflag_apply` left in the variables of `main`. -/
theorem entry_args_are_cflag_result (e : Env) (argc0 : Int) (argv0 : List String)
    (h : invoked (main e argc0 argv0) = true) :
    invocations (main e argc0 argv0).trace = [e.cflag_apply argc0 argv0] := by
  revert h
  unfold main endgame include_path libs_path
  simp only []
  repeat' split
  all_goals simp [invoked, Event.isInvoke, invocations, Event.invokeArgs, handle_error]

/-- C7 amended, at `cjit code.c`. -/
theorem entry_args_are_cflag_result_witness :
    invocations (main sampleEnv 2 sampleArgv).trace = [(1, ["code.c"])] :=
  entry_args_are_cflag_result sampleEnv 2 sampleArgv (by decide)

/-! ## Order of the pipeline -/

/-- C9 as stated fails: in a complete run the two `write_to_file` calls (stage
1 of the lifecycle order of the specification) come after the library path
calls, the compilation and the host symbols (stages 2, 3 and 4). -/
theorem spec_lifecycle_order_violated :
    (main sampleEnv 2 sampleArgv).trace.filterMap stageInSpec =
      [0, 2, 2, 3, 4, 4, 4, 1, 1, 5, 6, 7] ∧
    ¬ inOrder stageInSpec (main sampleEnv 2 sampleArgv).trace := by
  decide

/-- C9 amended: on every run the pipeline steps occur in the order workspace
creation, library path, compilation, host symbols, staging, relocation, entry
resolution, invocation; the steps of a run are an initial part of the steps of
a complete run. -/
theorem pipeline_order_in_code (e : Env) (argc0 : Int) (argv0 : List String) :
    inOrder stageInCode (main e argc0 argv0).trace ∧
    (main e argc0 argv0).trace.filterMap stageInCode <+: fullPipeline := by
  unfold main endgame include_path libs_path
  simp only []
  repeat' split
  all_goals simp [inOrder, stageInCode, fullPipeline]

/-- C10: on every run, a host symbol is registered only after a call of
`tcc_compile_string` that did not return -1, none is registered from the call
of `tcc_relocate` on, and when `tcc_relocate` is called the registrations made
before it are exactly `stdout`, `stderr` and `fprintf`, once each, with the
session that is relocated. -/
theorem host_symbols_between_compile_and_relocate (e : Env) (argc0 : Int)
    (argv0 : List String) :
    ((main e argc0 argv0).trace.any Event.isAddSymbol = true →
      (before Event.isAddSymbol (main e argc0 argv0).trace).any Event.isCompileOk = true) ∧
    registered (since Event.isRelocate (main e argc0 argv0).trace) = [] ∧
    (∀ s ret, Event.tcc_relocate s ret ∈ (main e argc0 argv0).trace →
      registered (before Event.isRelocate (main e argc0 argv0).trace) =
        hostSymbolTable.map fun entry => (s, entry.1, entry.2)) := by
  unfold main endgame include_path libs_path
  simp only []
  repeat' split
  all_goals
    simp [before_nil, since_nil, before_cons, since_cons, before_diagnostics_append,
      since_diagnostics_append, Event.isAddSymbol, Event.isRelocate, Event.isCompileOk,
      registered, Event.symbol, hostSymbolTable, handle_error]
  all_goals assumption

/-- C10 at `cjit code.c`: `tcc_relocate` is called, and the three host symbols
were registered before it. -/
theorem host_symbols_between_compile_and_relocate_witness :
    Event.tcc_relocate ⟨1⟩ 0 ∈ (main sampleEnv 2 sampleArgv).trace ∧
    registered (before Event.isRelocate (main sampleEnv 2 sampleArgv).trace) =
      [(⟨1⟩, "stdout", HostAddr.stdout), (⟨1⟩, "stderr", HostAddr.stderr),
       (⟨1⟩, "fprintf", HostAddr.fprintf)] :=
  ⟨by decide,
    (host_symbols_between_compile_and_relocate sampleEnv 2 sampleArgv).2.2 ⟨1⟩ 0 (by decide)⟩

end CJIT
